import Mathlib

/-!
Verification of the aivi offline knowledge engine and navigation layer.

The definitions below are shallow embeddings of the Python source:
`ai_assistant/offline_manager.py` (knowledge search, relevance ranking,
search cache, knowledge promotion), `ai_assistant/google_search_manager.py`
(`smart_search` fallback orchestration), `ai_assistant/offline_conversation.py`
(intent classification) and `ai_assistant/vi_learning_system.py`
(menu navigation state machine).  Strings are Lean `String`s with the Python
string primitives (`lower`, `strip`, `split`, `in`) re-implemented over
`List Char`; floating-point scores are modelled exactly over `ℚ`; CSV tables
are lists of records.
-/

namespace Aivi

/-- Boolean test that the first character list is a leading segment of the
second (used to build substring containment). -/
def prefB : List Char → List Char → Bool
  | [], _ => true
  | _ :: _, [] => false
  | a :: as, b :: bs => a == b && prefB as bs

/-- Boolean test that `needle` occurs contiguously inside the second list. -/
def infB (needle : List Char) : List Char → Bool
  | [] => prefB needle []
  | c :: t => prefB needle (c :: t) || infB needle t

/-- Python's `needle in hay` substring test. -/
def containsSub (hay needle : String) : Bool :=
  infB needle.data hay.data

/-- Python's `str.lower()` (ASCII case folding, as in the source data). -/
def lowerS (s : String) : String :=
  ⟨s.data.map Char.toLower⟩

/-- Python's `str.strip()`: drop whitespace from both ends. -/
def trimS (s : String) : String :=
  ⟨((s.data.dropWhile Char.isWhitespace).reverse.dropWhile Char.isWhitespace).reverse⟩

/-- Helper for `splitComma`: accumulate the current piece (reversed). -/
def splitCommaAux : List Char → List Char → List String
  | [], acc => [⟨acc.reverse⟩]
  | c :: t, acc =>
    if c == ',' then ⟨acc.reverse⟩ :: splitCommaAux t []
    else splitCommaAux t (c :: acc)

/-- Python's `str.split(',')`: split at every comma, keeping empty pieces. -/
def splitComma (s : String) : List String :=
  splitCommaAux s.data []

/-- Helper for `pySplitWs`: accumulate the current word (reversed). -/
def splitWsAux : List Char → List Char → List String
  | [], acc => if acc.isEmpty then [] else [⟨acc.reverse⟩]
  | c :: t, acc =>
    if c.isWhitespace then
      (if acc.isEmpty then splitWsAux t [] else ⟨acc.reverse⟩ :: splitWsAux t [])
    else splitWsAux t (c :: acc)

/-- Python's `str.split()` with no argument: split on whitespace runs,
dropping empty pieces. -/
def pySplitWs (s : String) : List String :=
  splitWsAux s.data []

/-- One row of `aivi_knowledge_base.csv` as read by `OfflineDataManager`
(`keywords` stays the raw comma-separated field). -/
structure Row where
  id : String
  category : String
  question : String
  answer : String
  keywords : String
  source : String
  confidence : ℚ
deriving DecidableEq

/-- `OfflineDataManager._calculate_relevance` (offline_manager.py:149-176):
sequential score accumulation over an already lowercased query, finally
scaled by the row's confidence. -/
def calculateRelevance (query : String) (row : Row) : ℚ :=
  let score : ℚ := 0
  let score := if containsSub (lowerS row.question) query then score + 1 else score
  let queryWords := pySplitWs query
  let questionWords := pySplitWs (lowerS row.question)
  let commonWords := queryWords.eraseDups.filter (fun w => questionWords.contains w)
  let score := score + (commonWords.length : ℚ) / (queryWords.length : ℚ) * (8/10)
  let keywords := (splitComma row.keywords).map (fun k => lowerS (trimS k))
  let score := score + ((queryWords.filter (fun w => keywords.contains w)).length : ℚ) * (6/10)
  let score := if containsSub (lowerS row.answer) query then score + 4/10 else score
  score * row.confidence

/-- Modelled from the claim's wording for C1: the same formula but with the
keyword component counting each distinct query token at most once
(the source counts every occurrence).  Kept only to compare against
`calculateRelevance`. -/
def claimedRelevance (query : String) (row : Row) : ℚ :=
  let queryWords := pySplitWs query
  let questionWords := pySplitWs (lowerS row.question)
  let keywords := (splitComma row.keywords).map (fun k => lowerS (trimS k))
  ((if containsSub (lowerS row.question) query then (1 : ℚ) else 0)
    + ((queryWords.eraseDups.filter (fun w => questionWords.contains w)).length : ℚ)
        / (queryWords.length : ℚ) * (8/10)
    + ((queryWords.eraseDups.filter (fun w => keywords.contains w)).length : ℚ) * (6/10)
    + (if containsSub (lowerS row.answer) query then (4/10 : ℚ) else 0)) * row.confidence

/-- The row filter of `search_offline_data` (offline_manager.py:119-121):
query occurs in the question, or in the answer, or some comma-separated
keyword (stripped, lowercased) occurs in the query. -/
def matchesQuery (ql : String) (row : Row) : Bool :=
  containsSub (lowerS row.question) ql ||
  containsSub (lowerS row.answer) ql ||
  (splitComma row.keywords).any (fun k => containsSub ql (lowerS (trimS k)))

/-- The category filter of `search_offline_data` (offline_manager.py:123). -/
def categoryOk (cat : Option String) (row : Row) : Bool :=
  match cat with
  | none => true
  | some c => lowerS row.category == lowerS c

/-- A knowledge row paired with its relevance score. -/
structure ScoredRow where
  row : Row
  relevance : ℚ
deriving DecidableEq

/-- Stable insertion of a scored row into a list already sorted by
descending relevance: the new element goes before the first strictly
smaller score and after equal ones, which is exactly the order produced by
Python's stable `list.sort(key=relevance, reverse=True)`. -/
def insertDesc (x : ScoredRow) : List ScoredRow → List ScoredRow
  | [] => [x]
  | y :: ys => if y.relevance ≤ x.relevance then x :: y :: ys else y :: insertDesc x ys

/-- Stable sort by descending relevance (insertion sort), the model of
`results.sort(key=lambda x: x['relevance_score'], reverse=True)`. -/
def sortByRelDesc : List ScoredRow → List ScoredRow
  | [] => []
  | a :: l => insertDesc a (sortByRelDesc l)

/-- `OfflineDataManager.search_offline_data` (offline_manager.py:107-147):
filter by containment and category, score, stable-sort descending by
relevance, return the top 10. -/
def searchOfflineData (query : String) (cat : Option String) (kb : List Row) : List ScoredRow :=
  let ql := lowerS query
  let results := (kb.filter (fun r => matchesQuery ql r && categoryOk cat r)).map
    (fun r => ⟨r, calculateRelevance ql r⟩)
  (sortByRelDesc results).take 10

/-- The gravity row of the built-in seed data (offline_manager.py:55). -/
def gravityRow : Row :=
  { id := "3", category := "science", question := "What is gravity?"
    answer := "Gravity is a fundamental force that attracts objects with mass toward each other..."
    keywords := "gravity,physics,force", source := "builtin", confidence := 9/10 }

/-- One row of `search_cache.csv` (offline_manager.py:69). -/
structure CacheRow where
  queryHash : String
  query : String
  response : String
  source : String
  timestamp : Nat
  accessCount : Nat
deriving DecidableEq

/-- The cache key `hashlib.md5(query.encode()).hexdigest()`
(offline_manager.py:260): computed from the raw, unnormalized query text.
The digest itself is modelled by the identity, keeping its one property the
code relies on (distinct raw queries get distinct keys; md5 collisions are
ignored). -/
def queryKey (q : String) : String := q

/-- The per-row update of `cache_online_search` (offline_manager.py:269-271):
a row carrying the query's hash gets `access_count + 1` and a fresh
timestamp; its stored response is left as it was. -/
def bumpRow (q : String) (now : Nat) (row : CacheRow) : CacheRow :=
  if row.queryHash == queryKey q then
    { row with accessCount := row.accessCount + 1, timestamp := now }
  else row

/-- `OfflineDataManager.cache_online_search` (offline_manager.py:256-295)
restricted to its effect on the cache table: if some row already carries the
query's hash, every such row is bumped in place; otherwise a new row with
`access_count = 1` is appended. -/
def cacheOnlineSearch (query response source : String) (now : Nat)
    (cache : List CacheRow) : List CacheRow :=
  if cache.any (fun row => row.queryHash == queryKey query) then
    cache.map (bumpRow query now)
  else
    cache ++ [{ queryHash := queryKey query, query := query, response := response,
                source := source, timestamp := now, accessCount := 1 }]

/-- `OfflineDataManager.get_search_cache` (offline_manager.py:322-345),
as a pure lookup of the first row carrying the query's hash. -/
def getSearchCache (query : String) (cache : List CacheRow) : Option CacheRow :=
  cache.find? (fun row => row.queryHash == queryKey query)

/-- Modelled from the spec's glossary: the normalized (case-folded, trimmed)
form of a query, used only to state claim C2 against the code. -/
def normalizedQuery (q : String) : String := lowerS (trimS q)

/-- Number of cache rows carrying the key of `q`. -/
def countKey (q : String) (cache : List CacheRow) : Nat :=
  (cache.filter (fun row => row.queryHash == queryKey q)).length

/-- First cache row carrying the key of `q`. -/
def entryFor (q : String) (cache : List CacheRow) : Option CacheRow :=
  cache.find? (fun row => row.queryHash == queryKey q)

/-- The trigger phrases of `_extract_knowledge_from_cache`
(offline_manager.py:302). -/
def triggerPhrases : List String := ["what is", "explain", "how to", "define"]

/-- The source allow-list of `_extract_knowledge_from_cache`
(offline_manager.py:303). -/
def allowedSources : List String := ["ai", "wikipedia", "academic"]

/-- The category table of `_extract_knowledge_from_cache`
(offline_manager.py:308-315). -/
def inferCategory (query : String) : String :=
  if ["math", "physics", "chemistry", "biology"].any
      (fun w => containsSub (lowerS query) w) then "science"
  else if ["history", "literature", "art"].any
      (fun w => containsSub (lowerS query) w) then "humanities"
  else if ["programming", "code", "computer"].any
      (fun w => containsSub (lowerS query) w) then "technology"
  else "general"

/-- Python's `','.join` over a list of strings. -/
def joinComma : List String → String
  | [] => ""
  | [s] => s
  | s :: rest => ⟨s.data ++ ',' :: (joinComma rest).data⟩

/-- The keyword extraction of `_extract_knowledge_from_cache`
(offline_manager.py:306), already joined into the CSV keyword field. -/
def promotedKeywords (query : String) : String :=
  joinComma (((pySplitWs (lowerS query)).map trimS).filter (fun w => w.length > 3))

/-- `OfflineDataManager._extract_knowledge_from_cache`
(offline_manager.py:297-320) as the record it promotes, if any: a record is
added exactly when the response is longer than 100 characters, the lowered
query contains a trigger phrase, and the source is allow-listed.  The
time-derived `id` of `add_knowledge_entry` is abstracted to `""`. -/
def extractKnowledgeFromCache (query response source : String) : Option Row :=
  if response.length > 100 &&
      triggerPhrases.any (fun w => containsSub (lowerS query) w) &&
      allowedSources.contains source then
    some { id := "", category := inferCategory query, question := query,
           answer := response, keywords := promotedKeywords query,
           source := source, confidence := 7/10 }
  else none

/-- Result dictionary shape of `GoogleSearchManager.smart_search`. -/
structure SearchOutcome where
  success : Bool
  response : String
  source : String
  confidence : Option ℚ
deriving DecidableEq

/-- The post-offline part of `smart_search` (google_search_manager.py:320-331):
cached Google results, then a live Google search.  The paired number counts
invocations of the online search collaborator `search_google`. -/
def smartSearchTail (query : String) (cache : List CacheRow)
    (google : String → SearchOutcome) : SearchOutcome × Nat :=
  match getSearchCache query cache with
  | some cr =>
    if cr.source == "google" then
      ({ success := true, response := cr.response, source := "google_cache",
         confidence := none }, 0)
    else (google query, 1)
  | none => (google query, 1)

/-- `GoogleSearchManager.smart_search` (google_search_manager.py:294-331):
with `prefer_offline` set, a non-empty offline search short-circuits with the
top result tagged `"offline"`; otherwise the cache and the online collaborator
are consulted.  The paired number counts online-collaborator invocations. -/
def smartSearch (preferOffline : Bool) (kb : List Row) (cache : List CacheRow)
    (query : String) (google : String → SearchOutcome) : SearchOutcome × Nat :=
  if preferOffline then
    match searchOfflineData query none kb with
    | best :: _ =>
      ({ success := true, response := best.row.answer, source := "offline",
         confidence := some best.row.confidence }, 0)
    | [] => smartSearchTail query cache google
  else smartSearchTail query cache google

/-- The closed intent set of `OfflineConversationAI._analyze_intent`
(offline_conversation.py:89-102), plus the fallback `general`. -/
inductive Intent where
  | greeting | question | helpRequest | academicQuery | mathProblem | studyHelp
  | personalInfo | gratitude | goodbye | emotional | clarification
  | encouragementNeeded | general
deriving DecidableEq

/-- The intent keyword table in its Python dict insertion order
(offline_conversation.py:89-102). -/
def intentKeywords : List (Intent × List String) :=
  [(.greeting, ["hello", "hi", "hey", "good morning", "good afternoon", "good evening"]),
   (.question, ["what", "how", "when", "where", "why", "who", "which", "can you explain"]),
   (.helpRequest, ["help", "assist", "support", "guide", "show me", "teach me"]),
   (.academicQuery, ["explain", "define", "meaning of", "tell me about", "what is", "how does"]),
   (.mathProblem, ["solve", "calculate", "formula", "equation", "math", "mathematics"]),
   (.studyHelp, ["study", "learn", "practice", "quiz", "test", "exam", "homework"]),
   (.personalInfo, ["I am", "my name is", "I like", "I prefer", "I need", "I want"]),
   (.gratitude, ["thank", "thanks", "appreciate", "grateful"]),
   (.goodbye, ["bye", "goodbye", "see you", "farewell", "exit", "quit"]),
   (.emotional, ["frustrated", "confused", "worried", "happy", "excited", "sad", "angry"]),
   (.clarification, ["repeat", "again", "clarify", "explain again", "I don\x27t understand"]),
   (.encouragementNeeded, ["difficult", "hard", "struggling", "can\x27t understand", "give up"])]

/-- First table entry whose keyword list has a member contained in the
(lowered) utterance; `general` when none matches.  This is
`detected_intents[0] if detected_intents else 'general'` of the source. -/
def firstIntent (il : String) : List (Intent × List String) → Intent
  | [] => .general
  | (i, kws) :: rest =>
    if kws.any (fun k => containsSub il k) then i else firstIntent il rest

/-- `OfflineConversationAI._analyze_intent` (offline_conversation.py:83-110). -/
def analyzeIntent (s : String) : Intent :=
  firstIntent (lowerS s) intentKeywords

/-- Modelled from the claim's wording for C5: the same keyword table but with
`academicQuery` tested right after `question` (the claimed priority order
"Greeting, Question/AcademicQuery, HelpRequest, ...").  Kept only to compare
against `analyzeIntent`. -/
def claimedIntentOrder : List (Intent × List String) :=
  [(.greeting, ["hello", "hi", "hey", "good morning", "good afternoon", "good evening"]),
   (.question, ["what", "how", "when", "where", "why", "who", "which", "can you explain"]),
   (.academicQuery, ["explain", "define", "meaning of", "tell me about", "what is", "how does"]),
   (.helpRequest, ["help", "assist", "support", "guide", "show me", "teach me"]),
   (.mathProblem, ["solve", "calculate", "formula", "equation", "math", "mathematics"]),
   (.studyHelp, ["study", "learn", "practice", "quiz", "test", "exam", "homework"]),
   (.personalInfo, ["I am", "my name is", "I like", "I prefer", "I need", "I want"]),
   (.gratitude, ["thank", "thanks", "appreciate", "grateful"]),
   (.goodbye, ["bye", "goodbye", "see you", "farewell", "exit", "quit"]),
   (.emotional, ["frustrated", "confused", "worried", "happy", "excited", "sad", "angry"]),
   (.clarification, ["repeat", "again", "clarify", "explain again", "I don\x27t understand"]),
   (.encouragementNeeded, ["difficult", "hard", "struggling", "can\x27t understand", "give up"])]

/-- The classifier the claim describes (first match in the claimed order). -/
def claimedIntent (s : String) : Intent :=
  firstIntent (lowerS s) claimedIntentOrder

/-- The classifier contract in its amended priority order, written as an
explicit decision chain: greeting, question, helpRequest, academicQuery,
mathProblem, studyHelp, personalInfo, gratitude, goodbye, emotional,
clarification, encouragementNeeded, else general. -/
def intentPriority (s : String) : Intent :=
  let il := lowerS s
  if ["hello", "hi", "hey", "good morning", "good afternoon", "good evening"].any
      (fun k => containsSub il k) then .greeting
  else if ["what", "how", "when", "where", "why", "who", "which", "can you explain"].any
      (fun k => containsSub il k) then .question
  else if ["help", "assist", "support", "guide", "show me", "teach me"].any
      (fun k => containsSub il k) then .helpRequest
  else if ["explain", "define", "meaning of", "tell me about", "what is", "how does"].any
      (fun k => containsSub il k) then .academicQuery
  else if ["solve", "calculate", "formula", "equation", "math", "mathematics"].any
      (fun k => containsSub il k) then .mathProblem
  else if ["study", "learn", "practice", "quiz", "test", "exam", "homework"].any
      (fun k => containsSub il k) then .studyHelp
  else if ["I am", "my name is", "I like", "I prefer", "I need", "I want"].any
      (fun k => containsSub il k) then .personalInfo
  else if ["thank", "thanks", "appreciate", "grateful"].any
      (fun k => containsSub il k) then .gratitude
  else if ["bye", "goodbye", "see you", "farewell", "exit", "quit"].any
      (fun k => containsSub il k) then .goodbye
  else if ["frustrated", "confused", "worried", "happy", "excited", "sad", "angry"].any
      (fun k => containsSub il k) then .emotional
  else if ["repeat", "again", "clarify", "explain again", "I don\x27t understand"].any
      (fun k => containsSub il k) then .clarification
  else if ["difficult", "hard", "struggling", "can\x27t understand", "give up"].any
      (fun k => containsSub il k) then .encouragementNeeded
  else .general

/-- One menu topic of `VILearningSystem` (vi_learning_system.py:167-172). -/
structure Topic where
  title : String
  content : String
  keywords : String
  confidence : ℚ
deriving DecidableEq

/-- The mutable session fields of `VILearningSystem.__init__`
(vi_learning_system.py:22-30); `menu_level` keeps its string values
`"main" / "subject" / "topic" / "content"`. -/
structure LState where
  currentSubject : Option String
  currentTopic : Option Topic
  availableSubjects : List String
  availableTopics : List Topic
  menuLevel : String
deriving DecidableEq

/-- Outcome tags of the navigation methods (their `action` / failure
dictionaries). -/
inductive NavResult where
  | subjectNotFound | noTopicsAvailable | topicMenuPresented
  | noTopicsLoaded | invalidSelection | tutorialComplete
  | backToTopics | backToSubjects | backToMain | atMainMenu
deriving DecidableEq

/-- Helper for `pyTitle`: tracks whether the previous character was
alphabetic. -/
def pyTitleAux : List Char → Bool → List Char
  | [], _ => []
  | c :: cs, prevAlpha =>
    (if c.isAlpha then (if prevAlpha then c.toLower else c.toUpper) else c)
      :: pyTitleAux cs c.isAlpha

/-- Python's `str.title()` restricted to ASCII: uppercase each letter that
follows a non-letter, lowercase the rest. -/
def pyTitle (s : String) : String := ⟨pyTitleAux s.data false⟩

/-- Stable ascending insertion for strings. -/
def insertAsc (x : String) : List String → List String
  | [] => [x]
  | y :: ys => if x ≤ y then x :: y :: ys else y :: insertAsc x ys

/-- Ascending sort for strings, the model of Python's `sorted`. -/
def sortAsc : List String → List String
  | [] => []
  | a :: l => insertAsc a (sortAsc l)

/-- `VILearningSystem._load_subjects` (vi_learning_system.py:37-53): the
title-cased distinct non-empty categories, sorted. -/
def loadSubjects (kb : List Row) : List String :=
  sortAsc (((kb.filter (fun r => r.category ≠ "")).map (fun r => pyTitle r.category)).eraseDups)

/-- The fuzzy subject match of `start_learning_subject`
(vi_learning_system.py:104-110): first available subject that contains the
spoken name or is contained in it, case-insensitively. -/
def findSubjectMatch (subjects : List String) (name : String) : Option String :=
  subjects.find? (fun subject =>
    containsSub (lowerS subject) (lowerS name) || containsSub (lowerS name) (lowerS subject))

/-- Helper for `loadTopicsForSubject`: keep the first result for each
question text (`seen_questions`, vi_learning_system.py:160-174). -/
def dedupTopics : List ScoredRow → List String → List Topic
  | [], _ => []
  | r :: rs, seen =>
    if seen.contains r.row.question then dedupTopics rs seen
    else { title := r.row.question, content := r.row.answer,
           keywords := r.row.keywords, confidence := r.row.confidence }
      :: dedupTopics rs (r.row.question :: seen)

/-- `VILearningSystem._load_topics_for_subject` (vi_learning_system.py:156-175):
search the knowledge base with the subject as query and its lowered name as
category, then deduplicate by question text. -/
def loadTopicsForSubject (kb : List Row) (subject : String) : List Topic :=
  dedupTopics (searchOfflineData subject (some (lowerS subject)) kb) []

/-- `VILearningSystem.start_learning_subject` (vi_learning_system.py:99-154):
no fuzzy match leaves the state untouched; a match sets the subject, moves
`menu_level` to `"subject"`, loads the topics, and reports either the topic
menu or (for an empty topic list) the no-topics prompt. -/
def startLearningSubject (kb : List Row) (st : LState) (name : String) :
    LState × NavResult :=
  match findSubjectMatch st.availableSubjects name with
  | none => (st, .subjectNotFound)
  | some subj =>
    let topics := loadTopicsForSubject kb subj
    let st' := { st with currentSubject := some subj, menuLevel := "subject",
                         availableTopics := topics }
    if topics.isEmpty then (st', .noTopicsAvailable) else (st', .topicMenuPresented)

/-- First maximal digit run of a character list, as found by
`re.findall(r'\d+', selection)[0]`. -/
def firstDigitRun : List Char → Option (List Char)
  | [] => none
  | c :: cs =>
    if c.isDigit then some (c :: cs.takeWhile (fun d => d.isDigit))
    else firstDigitRun cs

/-- Decimal value of a digit run (Python's `int`). -/
def digitsVal (l : List Char) : Nat :=
  l.foldl (fun n c => n * 10 + (c.toNat - 48)) 0

/-- The number extracted from a spoken selection, if any digits occur. -/
def extractFirstNat (s : String) : Option Nat :=
  (firstDigitRun s.data).map digitsVal

/-- The selection-parsing section of `select_topic`
(vi_learning_system.py:201-219): the first digit run minus one, else the
index of the first topic whose title contains the selection. -/
def selectIndex (topics : List Topic) (selection : String) : Option Int :=
  match extractFirstNat selection with
  | some n => some ((n : Int) - 1)
  | none =>
    match topics.findIdx?
        (fun t => containsSub (lowerS t.title) (lowerS selection)) with
    | some i => some (i : Int)
    | none => none

/-- `VILearningSystem.select_topic` (vi_learning_system.py:192-236): resolve
the selection to a 0-based index, reject out-of-range indices with the state
untouched, and otherwise set the topic and move to `"content"`. -/
def selectTopic (st : LState) (selection : String) : LState × NavResult :=
  if st.availableTopics.isEmpty then (st, .noTopicsLoaded)
  else
    match selectIndex st.availableTopics selection with
    | none => (st, .invalidSelection)
    | some i =>
      if h : 0 ≤ i ∧ i.toNat < st.availableTopics.length then
        ({ st with currentTopic := some (st.availableTopics.get ⟨i.toNat, h.2⟩),
                   menuLevel := "content" }, .tutorialComplete)
      else (st, .invalidSelection)

/-- `VILearningSystem.go_back` (vi_learning_system.py:298-321). -/
def goBack (st : LState) : LState × NavResult :=
  if st.menuLevel == "content" then
    ({ st with menuLevel := "topic", currentTopic := none }, .backToTopics)
  else if st.menuLevel == "topic" then
    ({ st with menuLevel := "subject", currentSubject := none,
               availableTopics := [] }, .backToSubjects)
  else if st.menuLevel == "subject" then
    ({ st with menuLevel := "main" }, .backToMain)
  else (st, .atMainMenu)

/-- The navigation command vocabulary of the learning session. -/
inductive Cmd where
  | listSubjects
  | learn (name : String)
  | select (sel : String)
  | repeatContent
  | back
  | help
  | search (q : String)

/-- Effect of one command on the session state.  `list_subjects`,
`repeat_current_content`, `provide_help` and `search_and_present` only speak;
they leave every session field unchanged. -/
def step (kb : List Row) (st : LState) : Cmd → LState
  | .listSubjects => st
  | .learn n => (startLearningSubject kb st n).1
  | .select s => (selectTopic st s).1
  | .repeatContent => st
  | .back => (goBack st).1
  | .help => st
  | .search _ => st

/-- The state built by `VILearningSystem.__init__` (vi_learning_system.py:16-35). -/
def initState (kb : List Row) : LState :=
  { currentSubject := none, currentTopic := none,
    availableSubjects := loadSubjects kb, availableTopics := [],
    menuLevel := "main" }

/-- State reached from initialization by a command sequence. -/
def run (kb : List Row) (cmds : List Cmd) : LState :=
  cmds.foldl (step kb) (initState kb)

/-- The session invariant that actually holds on every reachable state:
`content` implies a current topic, `topic` or `content` implies a current
subject, and the topic list is the one computed from the current subject
(empty when no subject is set). -/
def stateInv (kb : List Row) (st : LState) : Prop :=
  (st.menuLevel = "content" → st.currentTopic ≠ none) ∧
  ((st.menuLevel = "topic" ∨ st.menuLevel = "content") → st.currentSubject ≠ none) ∧
  (∀ subj, st.currentSubject = some subj →
    st.availableTopics = loadTopicsForSubject kb subj) ∧
  (st.currentSubject = none → st.availableTopics = [])

/-- A one-row science knowledge base whose single record is reachable as a
topic (its keyword list contains the subject name). -/
def sciRow : Row :=
  { id := "1", category := "science", question := "What is gravity?"
    answer := "Gravity is a force.", keywords := "gravity,science"
    source := "builtin", confidence := 9/10 }

/-- A one-row history knowledge base whose single record never matches the
subject-name query, so the subject has no topics. -/
def histRow : Row :=
  { id := "7", category := "history", question := "Who was Napoleon?"
    answer := "A French emperor.", keywords := "napoleon,france"
    source := "builtin", confidence := 8/10 }

/-- The scored result produced for the query `"gravity"` on the one-row
gravity knowledge base. -/
def gravityScored : ScoredRow :=
  ⟨gravityRow, calculateRelevance (lowerS "gravity") gravityRow⟩

/-- Outcome of evaluating a Python expression: a value, or a raised
exception carrying its message. -/
inductive PyRes (α : Type) where
  | ok (a : α)
  | exn (msg : String)

/-- One entry of the `results` list that `search_enhanced` would feed to
`_format_offline_results` (main.py:2175-2192); the dict keys read there are
`topic`, `content` and `source` (a missing key's default is folded into the
field value). -/
structure OfflineItem where
  topic : String
  content : String
  source : String

/-- Python's `s[:300]`. -/
def take300 (s : String) : String := ⟨s.data.take 300⟩

/-- One loop block of `_format_offline_results` (main.py:2183-2189); the
`Source:` line appears only for a truthy (non-empty) source. -/
def formatOfflineItem (i : Nat) (res : OfflineItem) : String :=
  "📄 Result " ++ toString i ++ ":\n" ++
  "Topic: " ++ res.topic ++ "\n" ++
  "Content: " ++ take300 res.content ++ "...\n" ++
  (if res.source ≠ "" then "Source: " ++ res.source ++ "\n" else "") ++ "\n"

/-- The 1-based enumeration loop of `_format_offline_results`. -/
def formatItemsFrom : Nat → List OfflineItem → String
  | _, [] => ""
  | i, r :: rs => formatOfflineItem i r ++ formatItemsFrom (i + 1) rs

/-- `ModernAIVIGUI._format_offline_results` (main.py:2175-2192). -/
def formatOfflineResults (query : String) (results : List OfflineItem) : String :=
  if results.isEmpty then
    "No offline results found for \x27" ++ query ++ "\x27"
  else
    "📚 Offline Knowledge Base Results for: \"" ++ query ++ "\"\n\n" ++
      formatItemsFrom 1 (results.take 3) ++ "🔍 Source: Local Knowledge Base"

/-- The result dict of `GoogleSearchManager.search` as read by
`_format_google_results` (main.py:2194-2209): `success`, `summary` and the
`(title, url)` source pairs. -/
structure GoogleResult where
  success : Bool
  summary : String
  sources : List (String × String)

/-- The source-enumeration loop of `_format_google_results`
(main.py:2203-2206). -/
def formatGoogleSources : Nat → List (String × String) → String
  | _, [] => ""
  | i, (t, u) :: rest =>
    toString i ++ ". " ++ t ++ " - " ++ u ++ "\n" ++ formatGoogleSources (i + 1) rest

/-- `ModernAIVIGUI._format_google_results` (main.py:2194-2209). -/
def formatGoogleResults (query : String) (g : GoogleResult) : String :=
  "🌐 Google Search Results for: \"" ++ query ++ "\"\n\n📝 Summary:\n" ++ g.summary ++ "\n\n" ++
    (if g.sources.isEmpty then ""
     else "📚 Sources:\n" ++ formatGoogleSources 1 (g.sources.take 3)) ++
    "\n🔍 Source: Google Search (Cached)"

/-- The attribute lookup in `self.offline_data.search_knowledge(query)`
(main.py:2133): `self.offline_data` is an `OfflineDataManager`
(main.py:195), and no class in the repository defines `search_knowledge`
(`OfflineDataManager` offers only `search_offline_data`), so the lookup
raises `AttributeError` before any search runs. -/
def searchKnowledge (_query : String) : PyRes (List OfflineItem) :=
  .exn "\x27OfflineDataManager\x27 object has no attribute \x27search_knowledge\x27"

/-- The attribute read `self.offline_data_manager` (main.py:2034): no method
of `ModernAIVIGUI` ever assigns that attribute (only `self.offline_data` is
assigned, main.py:176 and 195), so the read raises `AttributeError`. -/
def offlineDataManagerRead : PyRes (Option (List Row)) :=
  .exn "\x27ModernAIVIGUI\x27 object has no attribute \x27offline_data_manager\x27"

/-- `ModernAIVIGUI.search_academic` (main.py:2031-2119): the body's first
statement reads `self.offline_data_manager`, so it raises at once and the
method's own handler (main.py:2117-2119) formats the exception into the
returned error string.  The unreachable `ok` branch abstracts the rest of
the body (the high-confidence offline check and then the OpenAI request);
the paired number counts invocations of the AI collaborator — 0 on the
reachable path, since the OpenAI call is never reached. -/
def searchAcademic (query : String) (ai : String → String) : String × Nat :=
  match offlineDataManagerRead with
  | .exn e => ("Academic search error: " ++ e, 0)
  | .ok _ => (ai query, 1)

/-- `ModernAIVIGUI.search_enhanced` (main.py:2123-2173) in `"offline_first"`
mode with `offline_data` and the Google manager available (main.py:195 and
208-209): the first statement of the mode branch is the `searchKnowledge`
call, which raises, so the enclosing handler (main.py:2169-2172) returns
`search_academic(query)`.  The `ok` branch is the unreachable remainder of
the mode branch translated from main.py:2134-2147 (offline formatting, then
the Google fallback, then the AI fallback).  The two counters tally
invocations of the Google collaborator and of the AI collaborator. -/
def searchEnhancedOfflineFirst (query : String) (google : String → GoogleResult)
    (ai : String → String) : String × Nat × Nat :=
  match searchKnowledge query with
  | .ok items =>
    if items.length > 0 then (formatOfflineResults query items, 0, 0)
    else
      let g := google query
      if g.success then (formatGoogleResults query g, 1, 0)
      else
        let (resp, aiCalls) := searchAcademic query ai
        (resp, 1, aiCalls)
  | .exn _ =>
    let (resp, aiCalls) := searchAcademic query ai
    (resp, 0, aiCalls)

/-- A concrete session state at menu level `"content"`. -/
def contentState : LState :=
  { currentSubject := some "Science"
    currentTopic := some { title := "T", content := "C", keywords := "k", confidence := 1 }
    availableSubjects := ["Science"]
    availableTopics := [{ title := "T", content := "C", keywords := "k", confidence := 1 }]
    menuLevel := "content" }

/-- First fixture topic. -/
def topicA : Topic := { title := "A", content := "a", keywords := "k", confidence := 1 }

/-- Second fixture topic. -/
def topicB : Topic := { title := "B", content := "b", keywords := "k", confidence := 1 }

/-- A concrete session state whose topic menu has exactly two entries. -/
def twoTopicState : LState :=
  { currentSubject := some "Science", currentTopic := none
    availableSubjects := ["Science"], availableTopics := [topicA, topicB]
    menuLevel := "subject" }

/-! ## Helper lemmas -/

theorem mem_insertDesc {x a : ScoredRow} {l : List ScoredRow} :
    x ∈ insertDesc a l ↔ x = a ∨ x ∈ l := by
  induction l with
  | nil => simp [insertDesc]
  | cons y ys ih =>
    unfold insertDesc
    split_ifs with h
    · simp
    · simp [ih]
      tauto

theorem mem_sortByRelDesc {x : ScoredRow} {l : List ScoredRow} :
    x ∈ sortByRelDesc l ↔ x ∈ l := by
  induction l with
  | nil => simp [sortByRelDesc]
  | cons a l ih => simp [sortByRelDesc, mem_insertDesc, ih]

theorem bumpRow_queryHash (q : String) (now : Nat) (row : CacheRow) :
    (bumpRow q now row).queryHash = row.queryHash := by
  unfold bumpRow
  split <;> rfl

theorem countKey_map_bump (q : String) (now : Nat) (c : List CacheRow) :
    countKey q (c.map (bumpRow q now)) = countKey q c := by
  induction c with
  | nil => rfl
  | cons a l ih =>
    unfold countKey at *
    simp only [List.map_cons, List.filter_cons, bumpRow_queryHash]
    split <;> simp [ih]

theorem findEntry_map_bump (q : String) (now : Nat) (c : List CacheRow) :
    entryFor q (c.map (bumpRow q now)) = (entryFor q c).map (bumpRow q now) := by
  induction c with
  | nil => rfl
  | cons a l ih =>
    unfold entryFor at *
    simp only [List.map_cons, List.find?_cons, bumpRow_queryHash]
    split <;> simp_all

theorem countKey_append_new (q : String) (c : List CacheRow) (row : CacheRow)
    (hrow : row.queryHash = queryKey q) :
    countKey q (c ++ [row]) = countKey q c + 1 := by
  unfold countKey
  simp [List.filter_append, hrow]

theorem countKey_eq_zero_iff (q : String) (c : List CacheRow) :
    countKey q c = 0 ↔ (c.any (fun row => row.queryHash == queryKey q)) = false := by
  unfold countKey
  rw [List.length_eq_zero, List.filter_eq_nil_iff]
  simp [List.any_eq_true]

theorem entryFor_isSome_of_countKey_pos (q : String) (c : List CacheRow)
    (h : countKey q c ≠ 0) :
    ∃ e, entryFor q c = some e ∧ e.queryHash = queryKey q := by
  have hany : (c.any (fun row => row.queryHash == queryKey q)) = true := by
    rcases hb : c.any (fun row => row.queryHash == queryKey q) with _ | _
    · exact absurd ((countKey_eq_zero_iff q c).mpr hb) h
    · rfl
  rcases List.any_eq_true.mp hany with ⟨x, hx, hpx⟩
  have hsome : (entryFor q c).isSome := by
    unfold entryFor
    exact List.find?_isSome.mpr ⟨x, hx, hpx⟩
  rcases Option.isSome_iff_exists.mp hsome with ⟨e, he⟩
  refine ⟨e, he, ?_⟩
  have := List.find?_some he
  simpa using this

theorem put_countKey_one (q r s : String) (t : Nat) (c : List CacheRow)
    (hu : countKey q c ≤ 1) : countKey q (cacheOnlineSearch q r s t c) = 1 := by
  unfold cacheOnlineSearch
  split
  case isTrue hany =>
    rw [countKey_map_bump]
    have hne : countKey q c ≠ 0 := by
      intro h0
      rw [(countKey_eq_zero_iff q c).mp h0] at hany
      exact Bool.false_ne_true hany
    omega
  case isFalse hany =>
    have h0 : countKey q c = 0 := by
      rcases hb : c.any (fun row => row.queryHash == queryKey q) with _ | _
      · exact (countKey_eq_zero_iff q c).mpr hb
      · exact absurd hb hany
    rw [countKey_append_new q c _ rfl, h0]

theorem dedupTopics_titles (rs : List ScoredRow) (seen : List String) :
    (∀ t ∈ dedupTopics rs seen, t.title ∉ seen) ∧
    ((dedupTopics rs seen).map Topic.title).Nodup := by
  induction rs generalizing seen with
  | nil => simp [dedupTopics]
  | cons r rs ih =>
    unfold dedupTopics
    split_ifs with h
    · exact ih seen
    · constructor
      · intro t ht
        rcases List.mem_cons.mp ht with rfl | ht
        · intro hmem
          exact h (List.elem_iff.mpr hmem)
        · intro hmem
          exact (ih (r.row.question :: seen)).1 t ht (List.mem_cons_of_mem _ hmem)
      · rw [List.map_cons, List.nodup_cons]
        constructor
        · intro hmem
          rcases List.mem_map.mp hmem with ⟨t, ht, htt⟩
          exact (ih (r.row.question :: seen)).1 t ht (htt ▸ List.mem_cons_self _ _)
        · exact (ih (r.row.question :: seen)).2

theorem stateInv_init (kb : List Row) : stateInv kb (initState kb) := by
  refine ⟨fun h => ?_, fun h => ?_, fun subj h => ?_, fun _ => rfl⟩
  · simp [initState] at h
  · rcases h with h | h <;> simp [initState] at h
  · simp [initState] at h

theorem stateInv_learn (kb : List Row) (st : LState) (n : String)
    (h : stateInv kb st) : stateInv kb (startLearningSubject kb st n).1 := by
  unfold startLearningSubject
  cases hm : findSubjectMatch st.availableSubjects n with
  | none => simpa [hm] using h
  | some subj =>
    simp only [hm]
    have hst' : stateInv kb
        { st with currentSubject := some subj, menuLevel := "subject",
                  availableTopics := loadTopicsForSubject kb subj } := by
      refine ⟨fun hl => ?_, fun hl => ?_, fun s1 hs1 => ?_, fun hs => ?_⟩
      · simp at hl
      · rcases hl with hl | hl <;> simp at hl
      · have hsubj : subj = s1 := by simpa using hs1
        subst hsubj
        rfl
      · simp at hs
    split <;> exact hst'

theorem stateInv_select (kb : List Row) (st : LState) (s : String)
    (h : stateInv kb st) : stateInv kb (selectTopic st s).1 := by
  unfold selectTopic
  split_ifs with hempty
  · exact h
  · cases hsi : selectIndex st.availableTopics s with
    | none => exact h
    | some i =>
      simp only [hsi]
      split
      · refine ⟨fun _ => ?_, fun _ => ?_, fun s1 hs1 => h.2.2.1 s1 hs1,
          fun hs => h.2.2.2 hs⟩
        · simp
        · intro hnone
          rw [h.2.2.2 hnone] at hempty
          exact hempty rfl
      · exact h

theorem stateInv_back (kb : List Row) (st : LState) (h : stateInv kb st) :
    stateInv kb (goBack st).1 := by
  unfold goBack
  split_ifs with h1 h2 h3
  · refine ⟨fun hc => ?_, fun _ => h.2.1 (Or.inr (eq_of_beq h1)),
      fun s1 hs1 => h.2.2.1 s1 hs1, fun hs => h.2.2.2 hs⟩
    simp at hc
  · refine ⟨fun hc => ?_, fun hl => ?_, fun s1 hs1 => ?_, fun _ => rfl⟩
    · simp at hc
    · rcases hl with hl | hl <;> simp at hl
    · simp at hs1
  · refine ⟨fun hc => ?_, fun hl => ?_, fun s1 hs1 => h.2.2.1 s1 hs1,
      fun hs => h.2.2.2 hs⟩
    · simp at hc
    · rcases hl with hl | hl <;> simp at hl
  · exact h

theorem stateInv_step (kb : List Row) (st : LState) (c : Cmd)
    (h : stateInv kb st) : stateInv kb (step kb st c) := by
  cases c with
  | listSubjects => exact h
  | learn n => exact stateInv_learn kb st n h
  | select s => exact stateInv_select kb st s h
  | repeatContent => exact h
  | back => exact stateInv_back kb st h
  | help => exact h
  | search q => exact h

/-! ## Claim C1 -/

/-- Claim C1, counterexample: on the duplicated-token query
`"gravity gravity"` against the seed gravity record, the code scores the
keyword hit twice (score 27/25) while the claimed per-token deduplication
would score it once (27/50), so the claimed formula is not the one the
ranker computes. -/
theorem relevance_dedup_ce :
    calculateRelevance "gravity gravity" gravityRow ≠
      claimedRelevance "gravity gravity" gravityRow := by
  have h1 : containsSub (lowerS gravityRow.question) "gravity gravity" = false := by decide
  have h2 : containsSub (lowerS gravityRow.answer) "gravity gravity" = false := by decide
  have h3 : (pySplitWs "gravity gravity").eraseDups.filter
      (fun w => (pySplitWs (lowerS gravityRow.question)).contains w) = [] := by decide
  have h4 : ((pySplitWs "gravity gravity").filter
      (fun w => ((splitComma gravityRow.keywords).map (fun k => lowerS (trimS k))).contains w)).length
      = 2 := by decide
  have h5 : ((pySplitWs "gravity gravity").eraseDups.filter
      (fun w => ((splitComma gravityRow.keywords).map (fun k => lowerS (trimS k))).contains w)).length
      = 1 := by decide
  have h6 : (pySplitWs "gravity gravity").length = 2 := by decide
  simp only [calculateRelevance, claimedRelevance, h1, h2, h3, h4, h5, h6]
  norm_num [gravityRow]

/-- Claim C1 (amended): for every query with a non-empty token list and every
knowledge record, the relevance score equals ((1.0 if the lowercased query is
a substring of the lowercased question) + 0.8 × (distinct matching
tokens)/(query token count) + 0.6 × (number of query-token occurrences that
equal a keyword tag — each repeated occurrence counts again) + (0.4 if the
query is a substring of the lowercased answer)) × confidence. -/
theorem relevance_formula (q : String) (row : Row) (hq : pySplitWs q ≠ []) :
    calculateRelevance q row =
      ((if containsSub (lowerS row.question) q then (1 : ℚ) else 0)
        + (((pySplitWs q).eraseDups.filter
              (fun w => (pySplitWs (lowerS row.question)).contains w)).length : ℚ)
            / ((pySplitWs q).length : ℚ) * (8/10)
        + (((pySplitWs q).filter
              (fun w => ((splitComma row.keywords).map (fun k => lowerS (trimS k))).contains w)).length : ℚ)
            * (6/10)
        + (if containsSub (lowerS row.answer) q then (4/10 : ℚ) else 0)) * row.confidence := by
  unfold calculateRelevance
  split_ifs <;> ring

/-- Claim C1, witness: the amended formula instantiated on the query
`"gravity"` and the seed gravity record. -/
theorem relevance_formula_w :
    pySplitWs "gravity" ≠ [] ∧
    calculateRelevance "gravity" gravityRow =
      ((if containsSub (lowerS gravityRow.question) "gravity" then (1 : ℚ) else 0)
        + (((pySplitWs "gravity").eraseDups.filter
              (fun w => (pySplitWs (lowerS gravityRow.question)).contains w)).length : ℚ)
            / ((pySplitWs "gravity").length : ℚ) * (8/10)
        + (((pySplitWs "gravity").filter
              (fun w => ((splitComma gravityRow.keywords).map (fun k => lowerS (trimS k))).contains w)).length : ℚ)
            * (6/10)
        + (if containsSub (lowerS gravityRow.answer) "gravity" then (4/10 : ℚ) else 0))
        * gravityRow.confidence :=
  ⟨by decide, relevance_formula "gravity" gravityRow (by decide)⟩

/-! ## Claim C2 -/

/-- Claim C2, counterexample: `"Hi"` and `"hi "` normalize to the same query,
yet caching one and then the other leaves two cache entries for that
normalized query — the key is a hash of the raw text, not of the normalized
text. -/
theorem cache_key_ce :
    normalizedQuery "Hi" = normalizedQuery "hi " ∧
    ((cacheOnlineSearch "hi " "r2" "online" 1
        (cacheOnlineSearch "Hi" "r1" "online" 0 [])).filter
      (fun row => normalizedQuery row.query == normalizedQuery "Hi")).length = 2 := by
  decide

/-- Claim C2 (amended): cache entries are keyed by a hash of the raw query
text; for a cache holding at most one entry for that key, two puts with the
byte-identical query leave exactly one entry, whose `accessCount` strictly
increased, whose timestamp is the second call's, and whose stored response is
unchanged from the first call. -/
theorem cache_put_amended (q r1 r2 s1 s2 : String) (t1 t2 : Nat)
    (c : List CacheRow) (hu : countKey q c ≤ 1) :
    countKey q (cacheOnlineSearch q r2 s2 t2 (cacheOnlineSearch q r1 s1 t1 c)) = 1 ∧
    ∃ e1 e2,
      entryFor q (cacheOnlineSearch q r1 s1 t1 c) = some e1 ∧
      entryFor q (cacheOnlineSearch q r2 s2 t2 (cacheOnlineSearch q r1 s1 t1 c)) = some e2 ∧
      e2.accessCount = e1.accessCount + 1 ∧ e2.timestamp = t2 ∧
      e2.response = e1.response := by
  have hc1 : countKey q (cacheOnlineSearch q r1 s1 t1 c) = 1 :=
    put_countKey_one q r1 s1 t1 c hu
  have hc2 : countKey q (cacheOnlineSearch q r2 s2 t2 (cacheOnlineSearch q r1 s1 t1 c)) = 1 :=
    put_countKey_one q r2 s2 t2 _ (le_of_eq hc1)
  refine ⟨hc2, ?_⟩
  rcases entryFor_isSome_of_countKey_pos q _
      (by omega : countKey q (cacheOnlineSearch q r1 s1 t1 c) ≠ 0)
    with ⟨e1, he1, hkey1⟩
  have hany1 : ((cacheOnlineSearch q r1 s1 t1 c).any
      (fun row => row.queryHash == queryKey q)) = true := by
    rcases hb : (cacheOnlineSearch q r1 s1 t1 c).any
        (fun row => row.queryHash == queryKey q) with _ | _
    · rw [(countKey_eq_zero_iff q _).mpr hb] at hc1
      exact absurd hc1 (by omega)
    · rfl
  have hput : ∀ (r s : String) (t : Nat) (d : List CacheRow),
      (d.any (fun row => row.queryHash == queryKey q)) = true →
      cacheOnlineSearch q r s t d = d.map (bumpRow q t) := by
    intro r s t d hd
    unfold cacheOnlineSearch
    rw [hd]
    simp
  have hmap : cacheOnlineSearch q r2 s2 t2 (cacheOnlineSearch q r1 s1 t1 c) =
      (cacheOnlineSearch q r1 s1 t1 c).map (bumpRow q t2) :=
    hput r2 s2 t2 _ hany1
  refine ⟨e1, bumpRow q t2 e1, he1, ?_, ?_, ?_, ?_⟩
  · rw [hmap, findEntry_map_bump, he1]
    rfl
  · unfold bumpRow
    rw [if_pos (by simp [hkey1])]
  · unfold bumpRow
    rw [if_pos (by simp [hkey1])]
  · unfold bumpRow
    rw [if_pos (by simp [hkey1])]

/-- Claim C2, witness: the amended statement instantiated on an empty cache
and two puts of the query `"hello"`. -/
theorem cache_put_amended_w :
    countKey "hello" [] ≤ 1 ∧
    (countKey "hello" (cacheOnlineSearch "hello" "b" "online" 1
        (cacheOnlineSearch "hello" "a" "online" 0 [])) = 1 ∧
      ∃ e1 e2,
        entryFor "hello" (cacheOnlineSearch "hello" "a" "online" 0 []) = some e1 ∧
        entryFor "hello" (cacheOnlineSearch "hello" "b" "online" 1
          (cacheOnlineSearch "hello" "a" "online" 0 [])) = some e2 ∧
        e2.accessCount = e1.accessCount + 1 ∧ e2.timestamp = 1 ∧
        e2.response = e1.response) :=
  ⟨by decide, cache_put_amended "hello" "a" "b" "online" "online" 0 1 [] (by decide)⟩

/-! ## Claim C3 -/

/-- Claim C3: a knowledge record is promoted from the cache/learn path iff
the response is longer than 100 characters, the lowered query contains one of
the trigger phrases, and the source is allow-listed; every promoted record
has confidence 0.7, and sources `"offline"` and `"cache"` are never
promoted. -/
theorem knowledge_promotion_iff (q resp src : String) :
    ((extractKnowledgeFromCache q resp src).isSome ↔
      (resp.length > 100 ∧ (∃ w ∈ triggerPhrases, containsSub (lowerS q) w = true) ∧
        src ∈ allowedSources)) ∧
    (∀ rec, extractKnowledgeFromCache q resp src = some rec → rec.confidence = 7/10) ∧
    ((src = "offline" ∨ src = "cache") → extractKnowledgeFromCache q resp src = none) := by
  have hcond : (decide (resp.length > 100) &&
      triggerPhrases.any (fun w => containsSub (lowerS q) w) &&
      allowedSources.contains src) = true ↔
      (resp.length > 100 ∧ (∃ w ∈ triggerPhrases, containsSub (lowerS q) w = true) ∧
        src ∈ allowedSources) := by
    simp [List.any_eq_true, and_assoc]
  refine ⟨?_, ?_, ?_⟩
  · constructor
    · intro hs
      unfold extractKnowledgeFromCache at hs
      split_ifs at hs with h
      · exact hcond.mp h
      · exact absurd hs (by simp)
    · intro hc
      unfold extractKnowledgeFromCache
      rw [if_pos (hcond.mpr hc)]
      rfl
  · intro rec hrec
    unfold extractKnowledgeFromCache at hrec
    split_ifs at hrec with h
    cases hrec
    rfl
  · intro hsrc
    unfold extractKnowledgeFromCache
    split_ifs with h
    · exfalso
      rcases hcond.mp h with ⟨-, -, hmem⟩
      rcases hsrc with rfl | rfl <;> simp [allowedSources] at hmem
    · rfl

/-- Claim C3, witness: a result with source `"offline"` is never promoted. -/
theorem knowledge_promotion_iff_w :
    ("offline" = "offline" ∨ "offline" = "cache") ∧
    extractKnowledgeFromCache "define x" "short" "offline" = none :=
  ⟨Or.inl rfl, (knowledge_promotion_iff "define x" "short" "offline").2.2 (Or.inl rfl)⟩

/-! ## Claim C4 -/

/-- Supporting lemma for C4: in `smart_search` with `prefer_offline` set, a
non-empty knowledge-store search returns its top record tagged `"offline"`
with zero invocations of the online collaborator.  This is the behavior the
claim (and the spec) describe; the `search_enhanced` orchestrator the claim
also cites fails to implement it, see `search_enhanced_offline_bug`. -/
theorem offline_first_short_circuit (kb : List Row) (cache : List CacheRow)
    (q : String) (google : String → SearchOutcome) (best : ScoredRow)
    (rest : List ScoredRow) (h : searchOfflineData q none kb = best :: rest) :
    smartSearch true kb cache q google =
      ({ success := true, response := best.row.answer, source := "offline",
         confidence := some best.row.confidence }, 0) := by
  unfold smartSearch
  rw [h]
  rfl

/-- Instantiation of `offline_first_short_circuit` on the one-row gravity
knowledge base. -/
theorem offline_first_short_circuit_w :
    searchOfflineData "gravity" none [gravityRow] = [gravityScored] ∧
    smartSearch true [gravityRow] [] "gravity"
        (fun _ => { success := false, response := "", source := "error",
                    confidence := none }) =
      ({ success := true, response := gravityRow.answer, source := "offline",
         confidence := some gravityRow.confidence }, 0) :=
  ⟨rfl, offline_first_short_circuit [gravityRow] [] "gravity" _ _ _ rfl⟩

/-- Claim C4 (code bug): on the seeded gravity knowledge base the
knowledge-store search for `"gravity"` yields a usable (non-empty) result,
yet `search_enhanced` in `offline_first` mode returns the academic-search
error string produced by its two attribute slips — the undefined
`search_knowledge` and the never-assigned `offline_data_manager` — for every
Google and AI collaborator, instead of the offline-tagged result the claim
(and the method's own "offline-first approach" docstring) describe; neither
collaborator is invoked. -/
theorem search_enhanced_offline_bug :
    searchOfflineData "gravity" none [gravityRow] = [gravityScored] ∧
    ∀ (google : String → GoogleResult) (ai : String → String),
      searchEnhancedOfflineFirst "gravity" google ai =
        ("Academic search error: \x27ModernAIVIGUI\x27 object has no attribute \x27offline_data_manager\x27",
          0, 0) :=
  ⟨rfl, fun _ _ => rfl⟩

/-! ## Claim C5 -/

/-- Claim C5, counterexample: `"define gravity, teach me"` matches both the
help-request and academic-query keyword lists and no earlier list; the code
classifies it as `helpRequest`, while the claimed priority order (academic
queries before help requests) classifies it as `academicQuery`. -/
theorem intent_order_ce :
    analyzeIntent "define gravity, teach me" = Intent.helpRequest ∧
    claimedIntent "define gravity, teach me" = Intent.academicQuery ∧
    Intent.helpRequest ≠ Intent.academicQuery := by
  decide

/-- Claim C5 (amended): the classifier returns exactly one intent, the first
match in the fixed order greeting, question, helpRequest, academicQuery,
mathProblem, studyHelp, personalInfo, gratitude, goodbye, emotional,
clarification, encouragementNeeded, with general when none matches; in
particular `"hello, what is gravity"` classifies as greeting. -/
theorem intent_first_match :
    (∀ s, analyzeIntent s = intentPriority s) ∧
    analyzeIntent "hello, what is gravity" = Intent.greeting :=
  ⟨fun _ => rfl, by decide⟩

/-! ## Claim C6 -/

/-- Claim C6, counterexample: from the one-row science knowledge base, the
command sequence learn, select, back, back reaches a state whose menu level
is `"subject"` while `currentSubject` is `none`, refuting the claimed
invariant that Subject or deeper implies a non-nil subject. -/
theorem session_invariant_ce :
    (run [sciRow] [.learn "science", .select "1", .back, .back]).menuLevel = "subject" ∧
    (run [sciRow] [.learn "science", .select "1", .back, .back]).currentSubject = none := by
  decide

/-- Claim C6 (amended): in every state reachable from initialization,
`menuLevel = "content"` implies a current topic, `menuLevel = "topic"` or
`"content"` implies a current subject (the level `"subject"` alone does not),
and the topic list is exactly the one computed from the current subject —
empty whenever no subject is set. -/
theorem session_invariant_amended (kb : List Row) (cmds : List Cmd) :
    stateInv kb (run kb cmds) := by
  unfold run
  have hgen : ∀ (l : List Cmd) (st : LState), stateInv kb st →
      stateInv kb (l.foldl (step kb) st) := by
    intro l
    induction l with
    | nil => exact fun st h => h
    | cons c l ih => exact fun st h => ih _ (stateInv_step kb st c h)
  exact hgen cmds _ (stateInv_init kb)

/-! ## Claim C7 -/

/-- Claim C7, counterexample: from a state at menu level `"content"`, Back
moves to level `"topic"`, not to `"subject"` as claimed. -/
theorem go_back_content_ce :
    contentState.menuLevel = "content" ∧
    (goBack contentState).1.menuLevel = "topic" ∧
    (goBack contentState).1.menuLevel ≠ "subject" := by
  decide

/-- Claim C7 (amended): Back from Main is a no-op; from Content it moves to
Topic and clears the current topic; from Topic it moves to Subject and clears
`currentSubject` and `availableTopics`; from Subject it moves to Main leaving
`currentSubject` and `availableTopics` unchanged. -/
theorem go_back_amended (st : LState) :
    (st.menuLevel = "main" → goBack st = (st, .atMainMenu)) ∧
    (st.menuLevel = "content" →
      goBack st = ({ st with menuLevel := "topic", currentTopic := none }, .backToTopics)) ∧
    (st.menuLevel = "topic" →
      goBack st =
        ({ st with menuLevel := "subject", currentSubject := none, availableTopics := [] },
          .backToSubjects)) ∧
    (st.menuLevel = "subject" → goBack st = ({ st with menuLevel := "main" }, .backToMain)) := by
  refine ⟨?_, ?_, ?_, ?_⟩ <;> intro h <;> simp [goBack, h]

/-- Claim C7, witness: Back at the initial (main-level) state is a no-op. -/
theorem go_back_amended_w :
    (initState [sciRow]).menuLevel = "main" ∧
    goBack (initState [sciRow]) = (initState [sciRow], .atMainMenu) :=
  ⟨rfl, (go_back_amended (initState [sciRow])).1 rfl⟩

/-! ## Claim C8 -/

/-- Claim C8, counterexample: on the history knowledge base the subject
fuzzy-matches but yields no topics; the command reports no-topics, yet the
menu level has already transitioned from `"main"` to `"subject"`, refuting
the claimed "without transitioning". -/
theorem learn_no_topics_ce :
    (startLearningSubject [histRow] (initState [histRow]) "history").2 =
      NavResult.noTopicsAvailable ∧
    (initState [histRow]).menuLevel = "main" ∧
    (startLearningSubject [histRow] (initState [histRow]) "history").1.menuLevel = "subject" := by
  decide

/-- Claim C8 (amended): the Learn command fuzzy-matches by case-insensitive
substring in either direction; on no match it reports failure leaving the
state unchanged; on a match it sets the subject, populates the topic list
from the category-filtered knowledge store deduplicated by question text, and
moves the menu level to `"subject"` regardless of whether topics exist,
reporting no-topics (with the online-search prompt) exactly when the topic
list is empty. -/
theorem learn_subject_amended (kb : List Row) (st : LState) (name : String) :
    (findSubjectMatch st.availableSubjects name = none →
      startLearningSubject kb st name = (st, .subjectNotFound)) ∧
    (∀ subj, findSubjectMatch st.availableSubjects name = some subj →
      subj ∈ st.availableSubjects ∧
      (containsSub (lowerS subj) (lowerS name) = true ∨
        containsSub (lowerS name) (lowerS subj) = true) ∧
      (startLearningSubject kb st name).1 =
        { st with currentSubject := some subj, menuLevel := "subject",
                  availableTopics := loadTopicsForSubject kb subj } ∧
      ((loadTopicsForSubject kb subj).map Topic.title).Nodup ∧
      (startLearningSubject kb st name).2 =
        (if loadTopicsForSubject kb subj = [] then NavResult.noTopicsAvailable
         else NavResult.topicMenuPresented)) := by
  constructor
  · intro hm
    unfold startLearningSubject
    rw [hm]
  · intro subj hm
    refine ⟨List.mem_of_find?_eq_some hm, ?_, ?_, ?_, ?_⟩
    · have := List.find?_some hm
      rwa [Bool.or_eq_true] at this
    · unfold startLearningSubject
      simp only [hm]
      split <;> rfl
    · exact (dedupTopics_titles _ _).2
    · unfold startLearningSubject
      simp only [hm]
      split_ifs with h1 h2 h2
      · rfl
      · exact absurd (List.isEmpty_iff.mp h1) h2
      · exact absurd (List.isEmpty_iff.mpr h2) h1
      · rfl

/-- Claim C8, witness: `"science"` fuzzy-matches the subject `"Science"` of
the one-row science knowledge base. -/
theorem learn_subject_amended_w :
    findSubjectMatch (initState [sciRow]).availableSubjects "science" = some "Science" ∧
    "Science" ∈ (initState [sciRow]).availableSubjects :=
  ⟨by decide,
   ((learn_subject_amended [sciRow] (initState [sciRow]) "science").2 "Science" (by decide)).1⟩

/-! ## Claim C9 -/

/-- Claim C9: with exactly two topics on the menu, Select "2" resolves to the
second entry, records it as the current topic and moves to content delivery,
while Select "5" reports an invalid selection and leaves the entire state
unchanged. -/
theorem select_two_topics (st : LState) (t1 t2 : Topic)
    (h : st.availableTopics = [t1, t2]) :
    selectTopic st "2" =
      ({ st with currentTopic := some t2, menuLevel := "content" }, .tutorialComplete) ∧
    selectTopic st "5" = (st, .invalidSelection) := by
  have h2 : extractFirstNat "2" = some 2 := by decide
  have h5 : extractFirstNat "5" = some 5 := by decide
  obtain ⟨cs, ct, savail, stopics, ml⟩ := st
  simp only at h
  subst h
  have hsi2 : selectIndex [t1, t2] "2" = some 1 := by norm_num [selectIndex, h2]
  have hsi5 : selectIndex [t1, t2] "5" = some 4 := by norm_num [selectIndex, h5]
  constructor
  · unfold selectTopic
    simp only [hsi2]
    norm_num
  · unfold selectTopic
    simp only [hsi5]
    norm_num

/-- Claim C9, witness: the two-topic fixture state with Select "5". -/
theorem select_two_topics_w :
    twoTopicState.availableTopics = [topicA, topicB] ∧
    selectTopic twoTopicState "5" = (twoTopicState, .invalidSelection) :=
  ⟨rfl, (select_two_topics twoTopicState topicA topicB rfl).2⟩

/-! ## Claim C10 -/

/-- Claim C10: every record returned by the knowledge-store search satisfies
the containment filter — the lowercased query occurs in its question or its
answer, or one of its comma-separated keyword tags occurs in the query; a
record sharing only individual tokens with the query is never returned. -/
theorem search_containment (q : String) (cat : Option String) (kb : List Row)
    (sr : ScoredRow) (h : sr ∈ searchOfflineData q cat kb) :
    containsSub (lowerS sr.row.question) (lowerS q) = true ∨
    containsSub (lowerS sr.row.answer) (lowerS q) = true ∨
    ∃ k ∈ splitComma sr.row.keywords, containsSub (lowerS q) (lowerS (trimS k)) = true := by
  unfold searchOfflineData at h
  have h2 := List.mem_of_mem_take h
  rw [mem_sortByRelDesc] at h2
  rcases List.mem_map.mp h2 with ⟨r, hr, hsr⟩
  rcases List.mem_filter.mp hr with ⟨-, hcond⟩
  rw [Bool.and_eq_true] at hcond
  have hm : matchesQuery (lowerS q) r = true := hcond.1
  unfold matchesQuery at hm
  rw [Bool.or_eq_true, Bool.or_eq_true] at hm
  subst hsr
  rcases hm with (hq | ha) | hk
  · exact Or.inl hq
  · exact Or.inr (Or.inl ha)
  · exact Or.inr (Or.inr (by simpa [List.any_eq_true] using hk))

/-- Claim C10, witness: the gravity record returned for the query
`"gravity"` satisfies the containment disjunction. -/
theorem search_containment_w :
    gravityScored ∈ searchOfflineData "gravity" none [gravityRow] ∧
    (containsSub (lowerS gravityScored.row.question) (lowerS "gravity") = true ∨
     containsSub (lowerS gravityScored.row.answer) (lowerS "gravity") = true ∨
     ∃ k ∈ splitComma gravityScored.row.keywords,
       containsSub (lowerS "gravity") (lowerS (trimS k)) = true) :=
  ⟨List.mem_singleton.mpr rfl,
   search_containment "gravity" none [gravityRow] gravityScored (List.mem_singleton.mpr rfl)⟩

end Aivi
